import Mathlib

/-!
Verification of the gaming-lounge POS core (`app.py`).

A shallow embedding of the session-lifecycle and billing logic of the
point-of-sale server in `src/app.py`.  Python floats are modelled as exact
rationals (`ℚ`), Python dicts keyed by strings as association lists with a
`dictGet` lookup, and the two POST handlers as pure state-passing functions.
Wall-clock time is passed in explicitly as a rational timestamp measured in
minutes, so that `end - start` is the elapsed time in minutes that
`_calculate_duration_hours` consumes.
-/

/-- A game catalogue entry, mirroring one element of `games.json` as read by
`load_games` in `app.py`.  The Python dicts carry `name`, `price_per_hour`
and (optionally, defaulting to `True` via `.get('requires_controllers', True)`)
`requires_controllers`; the default is resolved into the Boolean field here. -/
structure Game where
  name : String
  price_per_hour : ℚ
  requires_controllers : Bool
deriving DecidableEq, Repr

/-- An active session record, mirroring the dict stored into
`POSHandler.sessions[sid]` by `_handle_start_session` (app.py lines 337-344).
The ISO `start_time` string is modelled as a rational timestamp in minutes. -/
structure SessionRec where
  mobile : String
  station : String
  game : String
  controllers : ℤ
  start_time : ℚ
deriving DecidableEq, Repr

/-- The invoice data assembled by `_handle_end_session` (app.py lines 567-580),
excluding the formatted date string. -/
structure Invoice where
  mobile : String
  station : String
  game : String
  controllers : ℤ
  duration_hours : ℚ
  base_cost : ℚ
  food_cost : ℚ
  wallet_used : ℚ
  total_due : ℚ
  loyalty_earned : ℚ
  remaining_wallet : ℚ
deriving DecidableEq, Repr

/-- The users store: mobile number ↦ wallet balance.  Mirrors
`POSHandler.users`, whose records are `{'mobile': m, 'wallet': w}` keyed by
the same mobile, so only the wallet needs to be stored per key. -/
abbrev Users := List (String × ℚ)

/-- The active-session mapping `POSHandler.sessions`: session id ↦ record. -/
abbrev Sessions := List (String × SessionRec)

/-- Dict lookup on an association list (Python `d.get(k)` semantics: the
binding for the key, if present). -/
def dictGet {β : Type} : List (String × β) → String → Option β
  | [], _ => none
  | (k2, v) :: rest, k => if k2 = k then some v else dictGet rest k

/-- Dict overwrite `d[k] = v`: the new binding shadows any old one. -/
def dictSet {β : Type} (d : List (String × β)) (k : String) (v : β) :
    List (String × β) :=
  (k, v) :: d.filter (fun p => p.1 ≠ k)

/-- The fixed station identifiers A-G (app.py line 314). -/
def stationList : List String := ["A", "B", "C", "D", "E", "F", "G"]

/-- Python `round(x, 2)`: round to two decimal places.  (Python uses
round-half-to-even on floats; ties at the third decimal never arise in the
claims, so ordinary rounding of the scaled value is used.) -/
def round2 (q : ℚ) : ℚ := (round (q * 100) : ℚ) / 100

/-- The duration rule `_calculate_duration_hours` (app.py lines 353-374), as a function of the
elapsed time in minutes: clamp negatives to zero, take whole hours, and add
half an hour when the leftover strictly exceeds 15 minutes. -/
def calculate_duration_hours (total_minutes : ℚ) : ℚ :=
  let tm := if total_minutes < 0 then 0 else total_minutes
  let hours : ℤ := ⌊tm / 60⌋
  let remainder := tm - (hours : ℚ) * 60
  (hours : ℚ) + (if remainder > 15 then 1/2 else 0)

/-- Outcome of `_handle_start_session` after JSON parsing: the HTTP branch
taken (400 missing/invalid fields, 409 conflict, 400 unknown game, or 200). -/
inductive StartResult
  | invalidFields
  | conflict
  | unknownGame
  | started (sid : String)
deriving DecidableEq, Repr

/-- The handler `_handle_start_session` (app.py lines 306-351) from the point where the
payload fields have been converted (`mobile`, `station`, `game_name` are the
stripped/uppercased strings, `controllers` the result of `int(...)`).  The
fresh `uuid4` is passed in as `sid`, the wall clock as `now`.  Returns the
new users store, the new session mapping and the branch taken, in the exact
order of the source: field validation, user lookup-or-create, station
occupancy scan, game resolution, controller forcing, insertion. -/
def handle_start_session (games : List Game) (users : Users)
    (sessions : Sessions) (mobile station game_name : String)
    (controllers : ℤ) (sid : String) (now : ℚ) :
    Users × Sessions × StartResult :=
  if mobile = "" ∨ station ∉ stationList ∨ game_name = "" then
    (users, sessions, .invalidFields)
  else
    let users' := if (dictGet users mobile).isSome then users
                  else (mobile, 0) :: users
    if sessions.any (fun p => p.2.station = station) then
      (users', sessions, .conflict)
    else
      match games.find? (fun g => g.name = game_name) with
      | none => (users', sessions, .unknownGame)
      | some g =>
          let controllers' := if g.requires_controllers then controllers else 0
          (users',
           (sid, ⟨mobile, station, game_name, controllers', now⟩) :: sessions,
           .started sid)

/-- Result of the wallet/loyalty block of `_handle_end_session`
(app.py lines 534-546). -/
structure WalletOutcome where
  wallet_used : ℚ
  remaining_due : ℚ
  loyalty_earned : ℚ
  new_wallet_balance : ℚ
deriving DecidableEq, Repr

/-- The wallet-and-loyalty computation inlined in `_handle_end_session`
(app.py lines 534-546): clamp the wallet debit by `min`, charge the rest,
accrue loyalty as 10% of the pre-wallet total (base plus food, per the
source comment "loyalty points: 10% of total bill (base + food) before
wallet usage"), and round the updated wallet to two decimals. -/
def applyWalletAndLoyalty (base_cost food_cost wallet_available : ℚ)
    (use_wallet : Bool) : WalletOutcome :=
  let total_due_before_wallet := base_cost + food_cost
  let wallet_used := if use_wallet ∧ 0 < wallet_available then
                       min wallet_available total_due_before_wallet
                     else 0
  let remaining_due := total_due_before_wallet - wallet_used
  let loyalty_earned := (0.10 : ℚ) * total_due_before_wallet
  let new_wallet_balance :=
    round2 (wallet_available - wallet_used + loyalty_earned)
  ⟨wallet_used, remaining_due, loyalty_earned, new_wallet_balance⟩

/-- Outcome of `_handle_end_session` after JSON parsing: 400 invalid session
id, or 200 with the computed invoice. -/
inductive EndResult
  | invalidSession
  | billed (inv : Invoice)
deriving DecidableEq, Repr

/-- The game lookup of `_handle_end_session` (app.py line 522): the session's
game name resolved against the catalogue at end time. -/
def endGameObj (games : List Game) (sess : SessionRec) : Option Game :=
  games.find? (fun g => g.name = sess.game)

/-- The hourly rate used by `_handle_end_session` (app.py lines 523-526):
the resolved game's price, or the fixed default 100 when the game no longer
resolves. -/
def endPricePerHour (games : List Game) (sess : SessionRec) : ℚ :=
  match endGameObj games sess with
  | none => 100
  | some g => g.price_per_hour

/-- The base-cost computation of `_handle_end_session` (app.py lines
527-533): flat per-hour when the resolved game does not require controllers,
otherwise per controller per hour with a floor of one controller (this
branch also covers an unresolved game). -/
def endBaseCost (games : List Game) (sess : SessionRec) (now : ℚ) : ℚ :=
  if (match endGameObj games sess with
      | some g => !g.requires_controllers
      | none => false) then
    calculate_duration_hours (now - sess.start_time) *
      endPricePerHour games sess
  else
    calculate_duration_hours (now - sess.start_time) *
      endPricePerHour games sess * ((max 1 sess.controllers : ℤ) : ℚ)

/-- The wallet block of `_handle_end_session` (app.py lines 534-546) applied
to the session's user: the wallet defaults to 0 when the mobile is unknown
(`users.get(mobile, {'wallet': 0})`). -/
def endWallet (games : List Game) (users : Users) (sess : SessionRec)
    (food_cost : ℚ) (use_wallet : Bool) (now : ℚ) : WalletOutcome :=
  applyWalletAndLoyalty (endBaseCost games sess now) food_cost
    ((dictGet users sess.mobile).getD 0) use_wallet

/-- The handler `_handle_end_session` (app.py lines 492-615) from the point where the
payload fields have been converted (`session_id` the string id, with the
empty string standing for a falsy/absent id, `food_cost` the result of
`float(...)`, `use_wallet` the result of `bool(...)`).  The wall clock is
`now`.  Follows the source order: id check, `pop` of the session, duration,
game pricing with the 100/hr fallback, base cost, wallet and loyalty,
users-store write-back, invoice assembly. -/
def handle_end_session (games : List Game) (users : Users)
    (sessions : Sessions) (session_id : String) (food_cost : ℚ)
    (use_wallet : Bool) (now : ℚ) : Users × Sessions × EndResult :=
  if session_id = "" then (users, sessions, .invalidSession)
  else
    match dictGet sessions session_id with
    | none => (users, sessions, .invalidSession)
    | some sess =>
        let sessions' := sessions.filter (fun p => p.1 ≠ session_id)
        let w := endWallet games users sess food_cost use_wallet now
        let users' := dictSet users sess.mobile w.new_wallet_balance
        (users', sessions',
         .billed ⟨sess.mobile, sess.station, sess.game, sess.controllers,
                  calculate_duration_hours (now - sess.start_time),
                  endBaseCost games sess now, food_cost, w.wallet_used,
                  w.remaining_due, w.loyalty_earned, w.new_wallet_balance⟩)

/-! The request-payload layer.

`do_POST` hands each handler a parsed JSON body.  The handlers convert the
raw JSON values with Python's `str`, `int`, `float` and `bool` before
validating anything, and an inconvertible value makes `int(...)` or
`float(...)` raise an uncaught `ValueError`: the request dies with a
traceback instead of a structured JSON error.  The conversions are modelled
below; a conversion that raises is `none`, and an API function returning
`none` models a crashed (unhandled-exception) request. -/

/-- A JSON scalar as delivered by `json.loads`.  (Nested arrays/objects in a
field position behave like `null` for the conversions the claims exercise and
are not modelled.) -/
inductive PyVal
  | str (s : String)
  | num (q : ℚ)
  | bool (b : Bool)
  | null
deriving DecidableEq, Repr

/-- Python `d.get(k, dflt)`. -/
def pyGet (p : List (String × PyVal)) (k : String) (dflt : PyVal) : PyVal :=
  (dictGet p k).getD dflt

/-- Python `str(v)` on a JSON scalar: never raises. -/
def pyStr : PyVal → String
  | .str s => s
  | .num q => toString q
  | .bool b => if b then "True" else "False"
  | .null => "None"

/-- Python truthiness `bool(v)` on a JSON scalar: never raises. -/
def pyTruthy : PyVal → Bool
  | .str s => s ≠ ""
  | .num q => q ≠ 0
  | .bool b => b
  | .null => false

/-- Python `s.strip()` (whitespace from both ends). -/
def pyStrip (s : String) : String :=
  ⟨((s.data.dropWhile (fun c => c.isWhitespace)).reverse.dropWhile
      (fun c => c.isWhitespace)).reverse⟩

/-- Python `s.upper()` (ASCII case mapping suffices for the station codes). -/
def pyUpper (s : String) : String := ⟨s.data.map Char.toUpper⟩

/-- The numeric value of a nonempty all-digit character list, else `none`. -/
def digitsVal (ds : List Char) : Option ℕ :=
  if ds ≠ [] ∧ ds.all (fun c => c.isDigit) then
    some (ds.foldl (fun a c => a * 10 + (c.toNat - 48)) 0)
  else none

/-- Python `int(s)` on a string: optional sign and decimal digits after
stripping whitespace; anything else (including `"2.5"` or `"abc"`) raises,
modelled as `none`. -/
def pyStrToInt (s : String) : Option ℤ :=
  match (pyStrip s).data with
  | '-' :: ds => (digitsVal ds).map (fun n => -(n : ℤ))
  | '+' :: ds => (digitsVal ds).map (fun n => (n : ℤ))
  | ds => (digitsVal ds).map (fun n => (n : ℤ))

/-- Python `float(s)` on a string: an optional sign, digits, and an optional
fractional part.  Exotic spellings (`"inf"`, `"nan"`, `"1."`, exponents) are
outside what the claims exercise and are treated as failures. -/
def pyStrToFloat (s : String) : Option ℚ :=
  let t := pyStrip s
  let core := fun (u : List Char) =>
    match u.splitOn '.' with
    | [a] => (digitsVal a).map (fun n => (n : ℚ))
    | [a, b] =>
        match digitsVal a, digitsVal b with
        | some n, some f => some ((n : ℚ) + (f : ℚ) / (10 : ℚ) ^ b.length)
        | _, _ => none
    | _ => none
  match t.data with
  | '-' :: u => (core u).map (fun q => -q)
  | '+' :: u => core u
  | u => core u

/-- Python `int(v)` on a JSON scalar: floats truncate toward zero, booleans
become 0/1, strings must be integer literals, `None` raises. -/
def pyInt : PyVal → Option ℤ
  | .num q => some (if q < 0 then ⌈q⌉ else ⌊q⌋)
  | .str s => pyStrToInt s
  | .bool b => some (if b then 1 else 0)
  | .null => none

/-- Python `float(v)` on a JSON scalar. -/
def pyFloat : PyVal → Option ℚ
  | .num q => some q
  | .str s => pyStrToFloat s
  | .bool b => some (if b then 1 else 0)
  | .null => none

/-- Response category of `_handle_start_session` including the
invalid-JSON-payload branch (app.py lines 306-309). -/
inductive StartApiResult
  | invalidPayload
  | handled (r : StartResult)
deriving DecidableEq, Repr

/-- Response category of `_handle_end_session` including the
invalid-JSON-payload branch (app.py lines 502-505). -/
inductive EndApiResult
  | invalidPayload
  | handled (r : EndResult)
deriving DecidableEq, Repr

/-- The handler `_handle_start_session` from the raw payload (app.py lines 306-316):
a non-dict body gets a structured 400; the field conversions run next, with
`int(payload.get('controllers', 0))` able to raise (result `none` = crash,
before any field validation); then the converted call proceeds. -/
def start_session_api (games : List Game) (users : Users)
    (sessions : Sessions) (payload : Option (List (String × PyVal)))
    (sid : String) (now : ℚ) : Option (Users × Sessions × StartApiResult) :=
  match payload with
  | none => some (users, sessions, .invalidPayload)
  | some p =>
      let mobile := pyStrip (pyStr (pyGet p "mobile" (.str "")))
      let station := pyUpper (pyStrip (pyStr (pyGet p "station" (.str ""))))
      let game_name := pyStrip (pyStr (pyGet p "game" (.str "")))
      match pyInt (pyGet p "controllers" (.num 0)) with
      | none => none
      | some controllers =>
          let r := handle_start_session games users sessions mobile station
                     game_name controllers sid now
          some (r.1, r.2.1, .handled r.2.2)

/-- The handler `_handle_end_session` from the raw payload (app.py lines 502-511):
a non-dict body gets a structured 400; `float(payload.get('food_cost', 0)
or 0)` can raise (`none` = crash); a falsy or non-string `session_id` is
never a key of the session mapping, so it is modelled as the empty string,
which the converted handler rejects. -/
def end_session_api (games : List Game) (users : Users) (sessions : Sessions)
    (payload : Option (List (String × PyVal))) (now : ℚ) :
    Option (Users × Sessions × EndApiResult) :=
  match payload with
  | none => some (users, sessions, .invalidPayload)
  | some p =>
      let food_raw := pyGet p "food_cost" (.num 0)
      match pyFloat (if pyTruthy food_raw then food_raw else .num 0) with
      | none => none
      | some food_cost =>
          let use_wallet := pyTruthy (pyGet p "use_wallet" (.bool true))
          let session_id := match pyGet p "session_id" .null with
                            | .str s => s
                            | _ => ""
          let r := handle_end_session games users sessions session_id
                     food_cost use_wallet now
          some (r.1, r.2.1, .handled r.2.2)

/-- States of the users-and-sessions store reachable from the empty store by
start-session and end-session requests (with an arbitrary wall clock, fresh
ids supplied by the caller as `uuid4` does, and a fixed games catalogue,
which no operation in `app.py` mutates). -/
inductive Reachable (games : List Game) : Users × Sessions → Prop
  | init : Reachable games ([], [])
  | step_start (users : Users) (sessions : Sessions) (users' : Users)
      (sessions' : Sessions) (res : StartResult) (mobile station game_name :
      String) (controllers : ℤ) (sid : String) (now : ℚ) :
      Reachable games (users, sessions) →
      handle_start_session games users sessions mobile station game_name
        controllers sid now = (users', sessions', res) →
      Reachable games (users', sessions')
  | step_end (users : Users) (sessions : Sessions) (users' : Users)
      (sessions' : Sessions) (res : EndResult) (sid : String) (food : ℚ)
      (uw : Bool) (now : ℚ) :
      Reachable games (users, sessions) →
      handle_end_session games users sessions sid food uw now
        = (users', sessions', res) →
      Reachable games (users', sessions')

/-- Failure modes of the catalogue price update described in spec §4.1. -/
inductive CatalogError
  | notFound
  | invalidArgument
deriving DecidableEq, Repr

/-- Modelled from the spec: the repository source under `src/` contains no
price-update operation (the games file is only ever read), so spec §4.1's
`updatePrice(name, newPrice)` is modelled from the spec's words: `NotFound`
when no game has the name, `InvalidArgument` when the new price is not a
finite non-negative number (over `ℚ` every value is finite, leaving the sign
check), otherwise the named game's price is replaced and the updated
catalogue returned for all subsequent reads. -/
def updatePrice (games : List Game) (name : String) (newPrice : ℚ) :
    Except CatalogError (List Game) :=
  if (games.find? (fun g => g.name = name)).isNone then .error .notFound
  else if newPrice < 0 then .error .invalidArgument
  else .ok (games.map (fun g =>
    if g.name = name then { g with price_per_hour := newPrice } else g))

/-- The duration formula exactly as the claim words it, stated over start
and end times. -/
def claimDuration (startTime endTime : ℚ) : ℚ :=
  let minutes := max 0 (endTime - startTime)
  let wholeHours : ℤ := ⌊minutes / 60⌋
  let remainder := minutes - (wholeHours : ℚ) * 60
  (wholeHours : ℚ) + (if remainder > 15 then 1/2 else 0)

/-! Helper lemmas and the claim theorems. -/

/-- C2: for every start and end time the computed duration matches the
claim's formula (whole hours plus half an hour exactly when the remainder
strictly exceeds 15 minutes of the clamped elapsed time), with the stated
boundary values 59 → 0.5, 60 → 1, 75 → 1, 76 → 1.5 hours, and a negative
elapsed time yielding 0 rather than an error. -/
theorem c2_duration_spec (startTime endTime m : ℚ) (hm : m < 0) :
    calculate_duration_hours (endTime - startTime)
        = claimDuration startTime endTime ∧
    calculate_duration_hours 59 = 1/2 ∧
    calculate_duration_hours 60 = 1 ∧
    calculate_duration_hours 75 = 1 ∧
    calculate_duration_hours 76 = 3/2 ∧
    calculate_duration_hours m = 0 := by
  refine ⟨?_, ?_, ?_, ?_, ?_, ?_⟩
  · have hmax : (if endTime - startTime < 0 then (0:ℚ) else endTime - startTime)
        = max 0 (endTime - startTime) := by
      rcases lt_or_le (endTime - startTime) 0 with h | h
      · rw [if_pos h, max_eq_left h.le]
      · rw [if_neg (not_lt.mpr h), max_eq_right h]
    simp only [calculate_duration_hours, claimDuration, hmax]
  · norm_num [calculate_duration_hours]
  · norm_num [calculate_duration_hours]
  · norm_num [calculate_duration_hours]
  · norm_num [calculate_duration_hours]
  · norm_num [calculate_duration_hours, hm, if_pos hm]

/-- Witness for C2 at start 0, end 59 and elapsed −1 minutes. -/
theorem c2_duration_spec_witness :
    (-1 : ℚ) < 0 ∧
    (calculate_duration_hours (59 - 0) = claimDuration 0 59 ∧
     calculate_duration_hours 59 = 1/2 ∧
     calculate_duration_hours 60 = 1 ∧
     calculate_duration_hours 75 = 1 ∧
     calculate_duration_hours 76 = 3/2 ∧
     calculate_duration_hours (-1) = 0) :=
  ⟨by norm_num, c2_duration_spec 0 59 (-1) (by norm_num)⟩

lemma round_nonneg_of_nonneg (q : ℚ) (h : 0 ≤ q) : 0 ≤ round q := by
  rw [round_eq]
  exact Int.le_floor.mpr (by push_cast; linarith)

lemma round2_nonneg (q : ℚ) (h : 0 ≤ q) : 0 ≤ round2 q := by
  unfold round2
  have := round_nonneg_of_nonneg (q * 100) (by positivity)
  positivity

lemma dictGet_filter_self {β : Type} (l : List (String × β)) (k : String) :
    dictGet (l.filter (fun p => p.1 ≠ k)) k = none := by
  induction l with
  | nil => rfl
  | cons p rest ih =>
      by_cases h : p.1 = k
      · simpa [List.filter_cons, h] using ih
      · simpa [List.filter_cons, h, dictGet] using ih

/-- Unfolding of `handle_end_session` on a present session id. -/
lemma handle_end_session_eq (games : List Game) (users : Users)
    (sessions : Sessions) (sid : String) (food : ℚ) (uw : Bool) (now : ℚ)
    (sess : SessionRec) (hne : sid ≠ "")
    (hlk : dictGet sessions sid = some sess) :
    handle_end_session games users sessions sid food uw now =
      (dictSet users sess.mobile
         (endWallet games users sess food uw now).new_wallet_balance,
       sessions.filter (fun p => p.1 ≠ sid),
       .billed ⟨sess.mobile, sess.station, sess.game, sess.controllers,
                calculate_duration_hours (now - sess.start_time),
                endBaseCost games sess now, food,
                (endWallet games users sess food uw now).wallet_used,
                (endWallet games users sess food uw now).remaining_due,
                (endWallet games users sess food uw now).loyalty_earned,
                (endWallet games users sess food uw now).new_wallet_balance⟩) := by
  unfold handle_end_session
  rw [if_neg hne, hlk]

example : (handle_end_session [⟨"G", 100, true⟩] [("9", 50)]
  [("s", ⟨"9", "A", "G", 1, 0⟩)] "s" 20 true 80).2.2 =
    .billed ⟨"9", "A", "G", 1, 3/2, 150, 20, 50, 120, 17, 17⟩ := by
  norm_num [handle_end_session, endWallet, endBaseCost, endPricePerHour,
    endGameObj, dictGet, dictSet, applyWalletAndLoyalty,
    calculate_duration_hours, round2, round_eq, List.find?]
  simp

/-- C1 counterexample: in the spec's own worked example (80-minute session of
a controller-required game at 100/hr with 1 controller, food 20, wallet 50,
use the wallet), the code computes loyalty on base+food: loyaltyEarned is 17
and the new wallet balance 17, not 15 = 0.10·baseCost as claimed. -/
theorem c1_counterexample :
    (handle_end_session [⟨"G", 100, true⟩] [("9", 50)]
       [("s", ⟨"9", "A", "G", 1, 0⟩)] "s" 20 true 80).2.2 =
      .billed ⟨"9", "A", "G", 1, 3/2, 150, 20, 50, 120, 17, 17⟩ ∧
    (17 : ℚ) ≠ (0.10 : ℚ) * 150 ∧ (17 : ℚ) ≠ 15 := by
  refine ⟨?_, by norm_num, by norm_num⟩
  norm_num [handle_end_session, endWallet, endBaseCost, endPricePerHour,
    endGameObj, dictGet, dictSet, applyWalletAndLoyalty,
    calculate_duration_hours, round2, round_eq, List.find?]
  simp

/-- C1 (amended): the loyalty accrual equals 0.10 times the pre-wallet total
(base cost PLUS food cost); it is still unaffected by whether the wallet is
used. -/
theorem c1_amended_loyalty (games : List Game) (users : Users)
    (sessions : Sessions) (sid : String) (food : ℚ) (uw : Bool) (now : ℚ)
    (sess : SessionRec) (hne : sid ≠ "")
    (hlk : dictGet sessions sid = some sess) :
    ∃ inv : Invoice,
      (handle_end_session games users sessions sid food uw now).2.2
          = .billed inv ∧
      inv.loyalty_earned = (0.10 : ℚ) * (inv.base_cost + inv.food_cost) ∧
      ∀ uw' : Bool, ∃ inv' : Invoice,
        (handle_end_session games users sessions sid food uw' now).2.2
            = .billed inv' ∧
        inv'.loyalty_earned = inv.loyalty_earned := by
  have h1 := handle_end_session_eq games users sessions sid food uw now sess
    hne hlk
  refine ⟨_, by rw [h1], ?_, ?_⟩
  · simp [endWallet, applyWalletAndLoyalty]
  · intro uw'
    have h2 := handle_end_session_eq games users sessions sid food uw' now sess
      hne hlk
    refine ⟨_, by rw [h2], ?_⟩
    simp [endWallet, applyWalletAndLoyalty]

/-- Witness for C1 (amended) at the spec's worked example. -/
theorem c1_amended_loyalty_witness :
    ("s" : String) ≠ "" ∧
    dictGet [("s", (⟨"9", "A", "G", 1, 0⟩ : SessionRec))] "s"
        = some ⟨"9", "A", "G", 1, 0⟩ ∧
    (∃ inv : Invoice,
      (handle_end_session [⟨"G", 100, true⟩] [("9", 50)]
          [("s", ⟨"9", "A", "G", 1, 0⟩)] "s" 20 true 80).2.2 = .billed inv ∧
      inv.loyalty_earned = (0.10 : ℚ) * (inv.base_cost + inv.food_cost) ∧
      ∀ uw' : Bool, ∃ inv' : Invoice,
        (handle_end_session [⟨"G", 100, true⟩] [("9", 50)]
            [("s", ⟨"9", "A", "G", 1, 0⟩)] "s" 20 uw' 80).2.2 = .billed inv' ∧
        inv'.loyalty_earned = inv.loyalty_earned) :=
  ⟨by simp, by simp [dictGet],
   c1_amended_loyalty [⟨"G", 100, true⟩] [("9", 50)]
     [("s", ⟨"9", "A", "G", 1, 0⟩)] "s" 20 true 80 ⟨"9", "A", "G", 1, 0⟩
     (by simp) (by simp [dictGet])⟩

/-- C3: the base cost is duration·price for a resolved game that does not
require controllers (recorded controllers ignored), duration·price·max(1,
controllers) when it does, and duration·100·max(1, controllers) when the
game no longer resolves at end time. -/
theorem c3_base_cost (games : List Game) (users : Users) (sessions : Sessions)
    (sid : String) (food : ℚ) (uw : Bool) (now : ℚ) (sess : SessionRec)
    (hne : sid ≠ "") (hlk : dictGet sessions sid = some sess) :
    ∃ inv : Invoice,
      (handle_end_session games users sessions sid food uw now).2.2
          = .billed inv ∧
      inv.duration_hours = calculate_duration_hours (now - sess.start_time) ∧
      (∀ g, games.find? (fun g2 => g2.name = sess.game) = some g →
         g.requires_controllers = false →
         inv.base_cost = inv.duration_hours * g.price_per_hour) ∧
      (∀ g, games.find? (fun g2 => g2.name = sess.game) = some g →
         g.requires_controllers = true →
         inv.base_cost = inv.duration_hours * g.price_per_hour *
           ((max 1 sess.controllers : ℤ) : ℚ)) ∧
      (games.find? (fun g2 => g2.name = sess.game) = none →
         inv.base_cost = inv.duration_hours * 100 *
           ((max 1 sess.controllers : ℤ) : ℚ)) := by
  have h1 := handle_end_session_eq games users sessions sid food uw now sess
    hne hlk
  refine ⟨_, by rw [h1], by simp, ?_, ?_, ?_⟩
  · intro g hg hreq
    simp [endBaseCost, endGameObj, endPricePerHour, hg, hreq]
  · intro g hg hreq
    simp [endBaseCost, endGameObj, endPricePerHour, hg, hreq]
  · intro hg
    simp [endBaseCost, endGameObj, endPricePerHour, hg]

/-- C4: the wallet balance written back by one completed end-session
transaction is non-negative for all non-negative base cost, food cost and
wallet balance, whichever way `useWallet` is set. -/
theorem c4_wallet_nonneg (base food wallet : ℚ) (uw : Bool)
    (hb : 0 ≤ base) (hf : 0 ≤ food) (hw : 0 ≤ wallet) :
    0 ≤ (applyWalletAndLoyalty base food wallet uw).new_wallet_balance := by
  have hmin : (if uw ∧ 0 < wallet then min wallet (base + food) else 0)
      ≤ wallet := by
    split_ifs with h
    · exact min_le_left _ _
    · exact hw
  have hloyal : 0 ≤ (0.10 : ℚ) * (base + food) :=
    mul_nonneg (by norm_num) (by linarith)
  unfold applyWalletAndLoyalty
  apply round2_nonneg
  linarith

/-- Witness for C4 at base 150, food 20, wallet 50, wallet in use. -/
theorem c4_wallet_nonneg_witness :
    (0 : ℚ) ≤ 150 ∧ (0 : ℚ) ≤ 20 ∧ (0 : ℚ) ≤ 50 ∧
    0 ≤ (applyWalletAndLoyalty 150 20 50 true).new_wallet_balance :=
  ⟨by norm_num, by norm_num, by norm_num,
   c4_wallet_nonneg 150 20 50 true (by norm_num) (by norm_num) (by norm_num)⟩

/-- Witness for C3 at a controller-required game with one controller. -/
theorem c3_base_cost_witness :
    ("s" : String) ≠ "" ∧
    dictGet [("s", (⟨"9", "A", "G", 1, 0⟩ : SessionRec))] "s"
        = some ⟨"9", "A", "G", 1, 0⟩ ∧
    (∃ inv : Invoice,
      (handle_end_session [⟨"G", 100, true⟩] [("9", 50)]
          [("s", ⟨"9", "A", "G", 1, 0⟩)] "s" 20 true 80).2.2 = .billed inv ∧
      inv.duration_hours = calculate_duration_hours (80 - (0 : ℚ)) ∧
      (∀ g, ([⟨"G", 100, true⟩] : List Game).find?
            (fun g2 => g2.name = ("G" : String)) = some g →
         g.requires_controllers = false →
         inv.base_cost = inv.duration_hours * g.price_per_hour) ∧
      (∀ g, ([⟨"G", 100, true⟩] : List Game).find?
            (fun g2 => g2.name = ("G" : String)) = some g →
         g.requires_controllers = true →
         inv.base_cost = inv.duration_hours * g.price_per_hour *
           ((max 1 (1 : ℤ) : ℤ) : ℚ)) ∧
      (([⟨"G", 100, true⟩] : List Game).find?
            (fun g2 => g2.name = ("G" : String)) = none →
         inv.base_cost = inv.duration_hours * 100 *
           ((max 1 (1 : ℤ) : ℤ) : ℚ))) :=
  ⟨by simp, by simp [dictGet],
   c3_base_cost [⟨"G", 100, true⟩] [("9", 50)]
     [("s", ⟨"9", "A", "G", 1, 0⟩)] "s" 20 true 80 ⟨"9", "A", "G", 1, 0⟩
     (by simp) (by simp [dictGet])⟩

/-- C5: ending a present session bills it and removes it from the mapping,
so an immediately repeated end on the same id fails with the invalid-session
error and leaves the state unchanged; ending an absent id fails the same way
and changes nothing. -/
theorem c5_end_once (games : List Game) (users users2 : Users)
    (sessions sessions2 : Sessions) (sid : String) (food food2 : ℚ)
    (uw uw2 : Bool) (now now2 : ℚ)
    (hne : sid ≠ "") (hpres : (dictGet sessions sid).isSome)
    (habs : dictGet sessions2 sid = none) :
    (∃ inv, (handle_end_session games users sessions sid food uw now).2.2
        = .billed inv) ∧
    dictGet (handle_end_session games users sessions sid food uw now).2.1 sid
        = none ∧
    handle_end_session games
        (handle_end_session games users sessions sid food uw now).1
        (handle_end_session games users sessions sid food uw now).2.1
        sid food2 uw2 now2 =
      ((handle_end_session games users sessions sid food uw now).1,
       (handle_end_session games users sessions sid food uw now).2.1,
       .invalidSession) ∧
    handle_end_session games users2 sessions2 sid food2 uw2 now2 =
      (users2, sessions2, .invalidSession) := by
  obtain ⟨sess, hlk⟩ := Option.isSome_iff_exists.mp hpres
  have h1 := handle_end_session_eq games users sessions sid food uw now sess
    hne hlk
  have habs1 : dictGet
      (handle_end_session games users sessions sid food uw now).2.1 sid
      = none := by
    rw [h1]
    exact dictGet_filter_self _ _
  have absent : ∀ (u : Users) (s : Sessions), dictGet s sid = none →
      handle_end_session games u s sid food2 uw2 now2
        = (u, s, .invalidSession) := by
    intro u s hs
    unfold handle_end_session
    rw [if_neg hne, hs]
  exact ⟨⟨_, by rw [h1]⟩, habs1, absent _ _ habs1, absent _ _ habs⟩

/-- Witness for C5 with one active session and an empty second ledger. -/
theorem c5_end_once_witness :
    ("s" : String) ≠ "" ∧
    (dictGet [("s", (⟨"9", "A", "G", 1, 0⟩ : SessionRec))] "s").isSome ∧
    dictGet ([] : Sessions) "s" = none ∧
    ((∃ inv, (handle_end_session [⟨"G", 100, true⟩] [("9", 50)]
        [("s", ⟨"9", "A", "G", 1, 0⟩)] "s" 20 true 80).2.2 = .billed inv) ∧
     dictGet (handle_end_session [⟨"G", 100, true⟩] [("9", 50)]
        [("s", ⟨"9", "A", "G", 1, 0⟩)] "s" 20 true 80).2.1 "s" = none ∧
     handle_end_session [⟨"G", 100, true⟩]
        (handle_end_session [⟨"G", 100, true⟩] [("9", 50)]
          [("s", ⟨"9", "A", "G", 1, 0⟩)] "s" 20 true 80).1
        (handle_end_session [⟨"G", 100, true⟩] [("9", 50)]
          [("s", ⟨"9", "A", "G", 1, 0⟩)] "s" 20 true 80).2.1
        "s" 0 false 90 =
       ((handle_end_session [⟨"G", 100, true⟩] [("9", 50)]
          [("s", ⟨"9", "A", "G", 1, 0⟩)] "s" 20 true 80).1,
        (handle_end_session [⟨"G", 100, true⟩] [("9", 50)]
          [("s", ⟨"9", "A", "G", 1, 0⟩)] "s" 20 true 80).2.1,
        .invalidSession) ∧
     handle_end_session [⟨"G", 100, true⟩] [] [] "s" 0 false 90
       = ([], [], .invalidSession)) :=
  ⟨by simp, by simp [dictGet], rfl,
   c5_end_once [⟨"G", 100, true⟩] [("9", 50)] [] [("s", ⟨"9", "A", "G", 1, 0⟩)]
     [] "s" 20 0 true false 80 90 (by simp) (by simp [dictGet]) rfl⟩

/-- C6: with well-formed fields, a start on a station occupied by some
active session fails with the 409 conflict and inserts nothing, while the
same call on an unoccupied station with a game that resolves succeeds and
inserts the new session. -/
theorem c6_station_conflict (games : List Game) (users : Users)
    (sessions : Sessions) (mobile station game_name : String)
    (controllers : ℤ) (sid : String) (now : ℚ)
    (hm : mobile ≠ "") (hs : station ∈ stationList) (hg : game_name ≠ "") :
    (sessions.any (fun p => p.2.station = station) = true →
       (handle_start_session games users sessions mobile station game_name
          controllers sid now).2 = (sessions, .conflict)) ∧
    (sessions.any (fun p => p.2.station = station) = false →
       ∀ g, games.find? (fun g2 => g2.name = game_name) = some g →
         (handle_start_session games users sessions mobile station game_name
            controllers sid now).2 =
           ((sid, ⟨mobile, station, game_name,
               if g.requires_controllers then controllers else 0, now⟩)
              :: sessions,
            .started sid)) := by
  constructor
  · intro hocc
    unfold handle_start_session
    rw [if_neg (by simp [hm, hs, hg]), if_pos hocc]
  · intro hfree g hfind
    unfold handle_start_session
    rw [if_neg (by simp [hm, hs, hg]), if_neg (by simp [hfree]), hfind]

/-- Witness for C6: station A occupied in the first ledger, free in the
second. -/
theorem c6_station_conflict_witness :
    ("9" : String) ≠ "" ∧ ("A" : String) ∈ stationList ∧
    ("G" : String) ≠ "" ∧
    (([("s0", (⟨"8", "A", "G", 1, 0⟩ : SessionRec))] : Sessions).any
        (fun p => p.2.station = ("A" : String)) = true →
      (handle_start_session [⟨"G", 100, true⟩] [] [("s0", ⟨"8", "A", "G", 1, 0⟩)]
         "9" "A" "G" 2 "sid1" 5).2 = ([("s0", ⟨"8", "A", "G", 1, 0⟩)], .conflict)) ∧
    (([] : Sessions).any (fun p => p.2.station = ("A" : String)) = false →
      ∀ g, ([⟨"G", 100, true⟩] : List Game).find?
          (fun g2 => g2.name = ("G" : String)) = some g →
        (handle_start_session [⟨"G", 100, true⟩] [] [] "9" "A" "G" 2 "sid1"
           5).2 =
          (("sid1", (⟨"9", "A", "G",
              if g.requires_controllers then 2 else 0, 5⟩ : SessionRec))
             :: ([] : Sessions),
           .started "sid1")) :=
  ⟨by simp, by simp [stationList], by simp,
   (c6_station_conflict [⟨"G", 100, true⟩] [] [("s0", ⟨"8", "A", "G", 1, 0⟩)]
      "9" "A" "G" 2 "sid1" 5 (by simp) (by simp [stationList]) (by simp)).1,
   (c6_station_conflict [⟨"G", 100, true⟩] [] [] "9" "A" "G" 2 "sid1" 5
      (by simp) (by simp [stationList]) (by simp)).2⟩

/-- C10: with a non-empty mobile, a recognized station and a non-empty game
name, the user lookup-or-create runs before the occupancy and game checks:
an absent mobile is stored with wallet 0 even when the call then fails with
the station conflict or with an unknown game, while the session mapping
stays unchanged in those failure cases. -/
theorem c10_user_created_early (games : List Game) (users : Users)
    (sessions : Sessions) (mobile station game_name : String)
    (controllers : ℤ) (sid : String) (now : ℚ)
    (hm : mobile ≠ "") (hs : station ∈ stationList) (hg : game_name ≠ "")
    (habs : dictGet users mobile = none) :
    (handle_start_session games users sessions mobile station game_name
       controllers sid now).1 = (mobile, 0) :: users ∧
    (sessions.any (fun p => p.2.station = station) = true →
       (handle_start_session games users sessions mobile station game_name
          controllers sid now).2 = (sessions, .conflict)) ∧
    (sessions.any (fun p => p.2.station = station) = false →
       games.find? (fun g2 => g2.name = game_name) = none →
       (handle_start_session games users sessions mobile station game_name
          controllers sid now).2 = (sessions, .unknownGame)) := by
  refine ⟨?_, ?_, ?_⟩
  · unfold handle_start_session
    rw [if_neg (by simp [hm, hs, hg])]
    simp only [habs, Option.isSome_none, Bool.false_eq_true, if_false]
    cases hocc : sessions.any (fun p => p.2.station = station) with
    | true => simp
    | false =>
        cases hfind : games.find? (fun g => g.name = game_name) with
        | none => simp
        | some g => simp
  · intro hocc
    unfold handle_start_session
    rw [if_neg (by simp [hm, hs, hg]), if_pos hocc]
  · intro hfree hfind
    unfold handle_start_session
    rw [if_neg (by simp [hm, hs, hg]), if_neg (by simp [hfree]), hfind]

/-- Witness for C10: unknown mobile, occupied station, resolvable game. -/
theorem c10_user_created_early_witness :
    ("9" : String) ≠ "" ∧ ("A" : String) ∈ stationList ∧
    ("G" : String) ≠ "" ∧ dictGet ([] : Users) "9" = none ∧
    ((handle_start_session [⟨"G", 100, true⟩] [] [("s0", ⟨"8", "A", "G", 1, 0⟩)]
        "9" "A" "G" 2 "sid1" 5).1 = [("9", 0)] ∧
     (([("s0", (⟨"8", "A", "G", 1, 0⟩ : SessionRec))] : Sessions).any
         (fun p => p.2.station = ("A" : String)) = true →
       (handle_start_session [⟨"G", 100, true⟩] []
          [("s0", ⟨"8", "A", "G", 1, 0⟩)] "9" "A" "G" 2 "sid1" 5).2 =
         ([("s0", ⟨"8", "A", "G", 1, 0⟩)], .conflict)) ∧
     (([("s0", (⟨"8", "A", "G", 1, 0⟩ : SessionRec))] : Sessions).any
         (fun p => p.2.station = ("A" : String)) = false →
       ([⟨"G", 100, true⟩] : List Game).find?
           (fun g2 => g2.name = ("G" : String)) = none →
       (handle_start_session [⟨"G", 100, true⟩] []
          [("s0", ⟨"8", "A", "G", 1, 0⟩)] "9" "A" "G" 2 "sid1" 5).2 =
         ([("s0", ⟨"8", "A", "G", 1, 0⟩)], .unknownGame))) :=
  ⟨by simp, by simp [stationList], by simp, rfl,
   c10_user_created_early [⟨"G", 100, true⟩] [] [("s0", ⟨"8", "A", "G", 1, 0⟩)]
     "9" "A" "G" 2 "sid1" 5 (by simp) (by simp [stationList]) (by simp) rfl⟩

/-- A start request leaves the session mapping unchanged or conses one new
session whose station no existing session occupies. -/
lemma start_sessions_cases (games : List Game) (users : Users)
    (sessions : Sessions) (mobile station game_name : String)
    (controllers : ℤ) (sid : String) (now : ℚ) (users' : Users)
    (sessions' : Sessions) (res : StartResult)
    (h : handle_start_session games users sessions mobile station game_name
           controllers sid now = (users', sessions', res)) :
    sessions' = sessions ∨
    (sessions.any (fun p => p.2.station = station) = false ∧
     ∃ c : ℤ, sessions' = (sid, ⟨mobile, station, game_name, c, now⟩)
       :: sessions) := by
  unfold handle_start_session at h
  by_cases h0 : (mobile = "" ∨ station ∉ stationList ∨ game_name = "")
  · rw [if_pos h0] at h
    left
    have := congrArg (fun t => t.2.1) h
    simpa using this.symm
  · rw [if_neg h0] at h
    simp only at h
    cases hocc : sessions.any (fun p => p.2.station = station) with
    | true =>
        rw [hocc] at h
        simp only [if_true] at h
        left
        have := congrArg (fun t => t.2.1) h
        simpa using this.symm
    | false =>
        rw [hocc] at h
        simp only [Bool.false_eq_true, if_false] at h
        cases hfind : games.find? (fun g => g.name = game_name) with
        | none =>
            rw [hfind] at h
            left
            have := congrArg (fun t => t.2.1) h
            simpa using this.symm
        | some g =>
            rw [hfind] at h
            right
            refine ⟨rfl, if g.requires_controllers then controllers else 0,
              ?_⟩
            have := congrArg (fun t => t.2.1) h
            simpa using this.symm

/-- An end request leaves the session mapping unchanged or deletes one id. -/
lemma end_sessions_cases (games : List Game) (users : Users)
    (sessions : Sessions) (sid : String) (food : ℚ) (uw : Bool) (now : ℚ)
    (users' : Users) (sessions' : Sessions) (res : EndResult)
    (h : handle_end_session games users sessions sid food uw now
           = (users', sessions', res)) :
    sessions' = sessions ∨
    sessions' = sessions.filter (fun p => p.1 ≠ sid) := by
  unfold handle_end_session at h
  by_cases h0 : sid = ""
  · rw [if_pos h0] at h
    left
    have := congrArg (fun t => t.2.1) h
    simpa using this.symm
  · rw [if_neg h0] at h
    cases hlk : dictGet sessions sid with
    | none =>
        rw [hlk] at h
        left
        have := congrArg (fun t => t.2.1) h
        simpa using this.symm
    | some sess =>
        rw [hlk] at h
        right
        have := congrArg (fun t => t.2.1) h
        simpa using this.symm

/-- C7: in every state reachable from the empty store by start-session and
end-session requests, no two active sessions occupy the same station. -/
theorem c7_station_invariant (games : List Game) (s : Users × Sessions)
    (h : Reachable games s) :
    s.2.Pairwise (fun a b => a.2.station ≠ b.2.station) := by
  induction h with
  | init => simp
  | step_start users sessions users' sessions' res mobile station game_name
      controllers sid now hr heq ih =>
      rcases start_sessions_cases games users sessions mobile station
        game_name controllers sid now users' sessions' res heq with
        rfl | ⟨hfree, c, rfl⟩
      · exact ih
      · refine List.pairwise_cons.mpr ⟨?_, ih⟩
        intro b hb
        have hall := List.any_eq_false.mp hfree
        have := hall b hb
        simp only [decide_eq_true_eq] at this
        simpa using fun hcontra => this (by rw [← hcontra])
  | step_end users sessions users' sessions' res sid food uw now hr heq ih =>
      rcases end_sessions_cases games users sessions sid food uw now users'
        sessions' res heq with rfl | rfl
      · exact ih
      · exact ih.sublist (List.filter_sublist _)

/-- Witness for C7 at the state reached by one successful start request. -/
theorem c7_station_invariant_witness :
    Reachable [⟨"G", 100, true⟩] ([("9", 0)], [("sid1", ⟨"9", "A", "G", 2, 0⟩)]) ∧
    (([("sid1", (⟨"9", "A", "G", 2, 0⟩ : SessionRec))] : Sessions).Pairwise
      (fun a b => a.2.station ≠ b.2.station)) := by
  have hr : Reachable [⟨"G", 100, true⟩]
      ([("9", 0)], [("sid1", ⟨"9", "A", "G", 2, 0⟩)]) :=
    Reachable.step_start [] [] [("9", 0)] [("sid1", ⟨"9", "A", "G", 2, 0⟩)]
      (.started "sid1") "9" "A" "G" 2 "sid1" 0 Reachable.init
      (by norm_num [handle_start_session, dictGet, stationList, List.find?]
          simp)
  exact ⟨hr, c7_station_invariant [⟨"G", 100, true⟩] _ hr⟩

/-- C8 counterexample: a payload carrying a non-numeric string for
`controllers` (start) or `food_cost` (end) makes the handler raise an
uncaught conversion error — modelled as `none`, no structured response —
contradicting the claim that every malformed payload yields a structured
failure. -/
theorem c8_counterexample :
    start_session_api [⟨"G", 100, true⟩] [] []
      (some [("mobile", .str "9"), ("station", .str "A"),
             ("game", .str "G"), ("controllers", .str "abc")]) "sid1" 0
      = none ∧
    end_session_api [⟨"G", 100, true⟩] [] []
      (some [("session_id", .str "s"), ("food_cost", .str "abc")]) 0
      = none := by
  constructor
  · simp [start_session_api, pyGet, dictGet, pyInt, pyStrToInt, pyStrip,
      digitsVal]
  · have habc : pyStrToFloat "abc" = none := by decide
    simp [end_session_api, pyGet, dictGet, pyTruthy, pyFloat, habc]

/-- C8 (amended): whenever the numeric conversions succeed — `int` on the
`controllers` value and, when the `food_cost` value is truthy, `float` on it
— both handlers return a structured response for every payload, including a
non-dict body; only inconvertible numeric strings crash the request. -/
theorem c8_amended_no_crash (games : List Game) (users : Users)
    (sessions : Sessions) (p : List (String × PyVal)) (sid : String) (now : ℚ)
    (h1 : (pyInt (pyGet p "controllers" (.num 0))).isSome)
    (h2 : (pyFloat (if pyTruthy (pyGet p "food_cost" (.num 0)) then
             pyGet p "food_cost" (.num 0) else .num 0)).isSome) :
    (start_session_api games users sessions (some p) sid now).isSome ∧
    (end_session_api games users sessions (some p) now).isSome ∧
    (start_session_api games users sessions none sid now).isSome ∧
    (end_session_api games users sessions none now).isSome := by
  obtain ⟨c, hc⟩ := Option.isSome_iff_exists.mp h1
  obtain ⟨f, hf⟩ := Option.isSome_iff_exists.mp h2
  refine ⟨?_, ?_, by simp [start_session_api], by simp [end_session_api]⟩
  · simp [start_session_api, hc]
  · simp [end_session_api, hf]

/-- Witness for C8 (amended) at a well-formed payload. -/
theorem c8_amended_no_crash_witness :
    (pyInt (pyGet [("mobile", .str "9"), ("station", .str "A"),
       ("game", .str "G"), ("controllers", .num 2)] "controllers"
       (.num 0))).isSome ∧
    (pyFloat (if pyTruthy (pyGet [("mobile", .str "9"), ("station", .str "A"),
       ("game", .str "G"), ("controllers", .num 2)] "food_cost" (.num 0)) then
       pyGet [("mobile", .str "9"), ("station", .str "A"),
         ("game", .str "G"), ("controllers", .num 2)] "food_cost" (.num 0)
       else .num 0)).isSome ∧
    ((start_session_api [⟨"G", 100, true⟩] [] []
        (some [("mobile", .str "9"), ("station", .str "A"),
               ("game", .str "G"), ("controllers", .num 2)]) "sid1" 0).isSome ∧
     (end_session_api [⟨"G", 100, true⟩] [] []
        (some [("mobile", .str "9"), ("station", .str "A"),
               ("game", .str "G"), ("controllers", .num 2)]) 0).isSome ∧
     (start_session_api [⟨"G", 100, true⟩] [] [] none "sid1" 0).isSome ∧
     (end_session_api [⟨"G", 100, true⟩] [] [] none 0).isSome) :=
  ⟨by simp [pyGet, dictGet, pyInt],
   by simp [pyGet, dictGet, pyTruthy, pyFloat],
   c8_amended_no_crash [⟨"G", 100, true⟩] [] []
     [("mobile", .str "9"), ("station", .str "A"),
      ("game", .str "G"), ("controllers", .num 2)] "sid1" 0
     (by simp [pyGet, dictGet, pyInt])
     (by simp [pyGet, dictGet, pyTruthy, pyFloat])⟩

/-- Updating the price of the first game found under a name keeps it the
first game found under that name, now carrying the new price. -/
lemma find?_map_update (games : List Game) (name : String) (newPrice : ℚ)
    (g : Game) (h : games.find? (fun g2 => g2.name = name) = some g) :
    (games.map (fun g2 => if g2.name = name then
        { g2 with price_per_hour := newPrice } else g2)).find?
      (fun g2 => g2.name = name) = some { g with price_per_hour := newPrice } := by
  induction games with
  | nil => simp at h
  | cons g0 rest ih =>
      by_cases h0 : g0.name = name
      · rw [List.find?_cons_of_pos _ (by simp [h0])] at h
        simp only [Option.some.injEq] at h
        subst h
        simp [List.map_cons, h0, List.find?_cons_of_pos]
      · rw [List.find?_cons_of_neg _ (by simp [h0])] at h
        simp only [List.map_cons, if_neg h0]
        rw [List.find?_cons_of_neg _ (by simp [h0])]
        exact ih h

/-- C9 (spec-modelled): `updatePrice` fails `NotFound` when no game carries
the name, fails `InvalidArgument` when the new price is negative, and
otherwise returns the catalogue with the named game's price replaced, the
update visible to a subsequent lookup. -/
theorem c9_updatePrice (games : List Game) (name : String) (newPrice : ℚ) :
    (games.find? (fun g => g.name = name) = none →
       updatePrice games name newPrice = .error .notFound) ∧
    ((games.find? (fun g => g.name = name)).isSome → newPrice < 0 →
       updatePrice games name newPrice = .error .invalidArgument) ∧
    (∀ g, games.find? (fun g2 => g2.name = name) = some g → 0 ≤ newPrice →
       updatePrice games name newPrice =
         .ok (games.map (fun g2 => if g2.name = name then
               { g2 with price_per_hour := newPrice } else g2)) ∧
       (games.map (fun g2 => if g2.name = name then
           { g2 with price_per_hour := newPrice } else g2)).find?
         (fun g2 => g2.name = name) = some { g with price_per_hour := newPrice }) := by
  refine ⟨?_, ?_, ?_⟩
  · intro h
    unfold updatePrice
    rw [if_pos (by simp [h])]
  · intro h hneg
    unfold updatePrice
    rw [if_neg (by
      simp only [Option.isNone_iff_eq_none]
      exact Option.isSome_iff_ne_none.mp h), if_pos hneg]
  · intro g hg hpos
    constructor
    · unfold updatePrice
      rw [if_neg (by simp [hg]), if_neg (not_lt.mpr hpos)]
    · exact find?_map_update games name newPrice g hg

/-- Witness for C9 on a two-game catalogue. -/
theorem c9_updatePrice_witness :
    ([⟨"G", 100, true⟩, ⟨"H", 80, false⟩] : List Game).find?
        (fun g2 => g2.name = ("G" : String)) = some ⟨"G", 100, true⟩ ∧
    (0 : ℚ) ≤ 120 ∧
    (updatePrice [⟨"G", 100, true⟩, ⟨"H", 80, false⟩] "G" 120 =
       .ok (([⟨"G", 100, true⟩, ⟨"H", 80, false⟩] : List Game).map
         (fun g2 => if g2.name = ("G" : String) then
           { g2 with price_per_hour := 120 } else g2)) ∧
     (([⟨"G", 100, true⟩, ⟨"H", 80, false⟩] : List Game).map
         (fun g2 => if g2.name = ("G" : String) then
           { g2 with price_per_hour := 120 } else g2)).find?
       (fun g2 => g2.name = ("G" : String)) = some ⟨"G", 120, true⟩) :=
  ⟨by simp, by norm_num,
   (c9_updatePrice [⟨"G", 100, true⟩, ⟨"H", 80, false⟩] "G" 120).2.2
     ⟨"G", 100, true⟩ (by simp) (by norm_num)⟩
